import Mathlib

/-!
Verification of js-libp2p-kad-dht core behaviours against its specification.

Shallow embedding of the relevant source:
- src/src/network.ts        (Network: sendRequest, sendMessage, _writeReadMessage)
- src/unnamed/part_000      (KadDHT: constructor, onPeerConnect, getMode, setMode)
- routing-table ping arbitration, modelled from the spec (its source file is
  absent from the repository snapshot; only its test is present).

Asynchronous generators are embedded as total functions from an explicit
environment (the outcome of each I/O step) to the finite list of events they
yield, plus resource-tracking flags (dial attempted, stream opened and closed).
A thrown JS error at an I/O step is an `Except.error` value in the environment;
a generator that catches everything is a total function.
-/

namespace KadDht

/-- A multiaddr, abstracted to the one property the address filters inspect:
whether it is a private (LAN) address. -/
structure Multiaddr where
  isPrivate : Bool
deriving DecidableEq, Repr

/-- Peer info as it travels in messages and events: a peer identifier
(opaque bytes, abstracted to a natural) and its multiaddrs. -/
structure PeerInfo where
  id : Nat
  multiaddrs : List Multiaddr
deriving DecidableEq, Repr

/-- A DHT record (opaque bytes). -/
structure DhtRecord where
  bytes : List Nat
deriving DecidableEq, Repr

/-- Message types of the wire protocol (src/src/network.ts message/index.js). -/
inductive MessageType where
  | putValue
  | getValue
  | addProvider
  | getProviders
  | findNode
  | ping
deriving DecidableEq, Repr

/-- A wire message: type, closer peers, provider peers, optional record. -/
structure Message where
  type : MessageType
  closerPeers : List PeerInfo
  providerPeers : List PeerInfo
  record : Option DhtRecord
deriving DecidableEq, Repr

/-- A JS error with an error code, as produced by the err-code package. -/
structure IOErr where
  message : String
  code : String
deriving DecidableEq, Repr

/-- The error thrown by _writeReadMessage when the stream yields no frame. -/
def noMessageReceived : IOErr :=
  { message := "No message received", code := "ERR_NO_MESSAGE_RECEIVED" }

/-- One length-prefixed frame decoded from the stream (opaque bytes). -/
abbrev Frame : Type := List Nat

/-- Query events yielded by Network.sendRequest / Network.sendMessage
(src/src/query/events.js constructors used in network.ts). -/
inductive QueryEvent where
  | dialingPeer (peer : Nat)
  | sendingQuery (dest : Nat) (msgType : MessageType)
  | peerResponse (source : Nat) (messageType : MessageType)
      (closer : List PeerInfo) (providers : List PeerInfo) (record : Option DhtRecord)
  | queryError (source : Nat) (error : IOErr)
deriving DecidableEq, Repr

/-- `first(source)` from it-first as used in _writeReadMessage: pull at most one
item from the source; return it together with the part of the source left
unread. -/
def firstOfSource (source : List Frame) : Option Frame × List Frame :=
  match source with
  | [] => (none, [])
  | x :: rest => (some x, rest)

/-- Result of Network._writeReadMessage: the returned message or thrown error,
the frames of the stream left unread, and the peer infos dispatched as
CustomEvent with name peer, in dispatch order. -/
structure WriteReadResult where
  result : Except IOErr Message
  unread : List Frame
  peerEvents : List PeerInfo
deriving Repr

/-- Network._writeReadMessage (src/src/network.ts lines 172-208): write the
request, length-prefix-decode the response stream into frames, take the first
frame (throw ERR_NO_MESSAGE_RECEIVED if there is none), deserialize it, then
dispatch one peer event per element of closerPeers followed by one per element
of providerPeers. `deser` embeds Message.deserialize, which is external to
network.ts. -/
def writeReadMessage (deser : Frame → Message) (frames : List Frame) : WriteReadResult :=
  match firstOfSource frames with
  | (some buf, rest) =>
      let message := deser buf
      { result := Except.ok message
        unread := rest
        peerEvents := message.closerPeers ++ message.providerPeers }
  | (none, rest) =>
      { result := Except.error noMessageReceived
        unread := rest
        peerEvents := [] }

/-- Environment for one sendRequest call: the outcome of each awaited I/O
step. `streamOutcome` is the outcome of the write-then-read pipe inside
_writeReadMessage: the decoded frames on success, or the error thrown while
writing, reading or on abort. -/
structure RequestEnv where
  openConn : Except IOErr Unit
  newStream : Except IOErr Unit
  streamOutcome : Except IOErr (List Frame)
  deser : Frame → Message

/-- Environment for one sendMessage call. -/
structure MessageEnv where
  openConn : Except IOErr Unit
  newStream : Except IOErr Unit
  write : Except IOErr Unit

/-- What a sendRequest / sendMessage generator run produced: the yielded
events in order, whether openConnection was called on the connection manager,
whether a stream was obtained, and whether that stream was closed. -/
structure SendResult where
  events : List QueryEvent
  dialAttempted : Bool
  streamOpened : Bool
  streamClosed : Bool
deriving DecidableEq, Repr

/-- Network.sendRequest (src/src/network.ts lines 86-118). Returns immediately
when the network is not running; otherwise yields dialing and sending events,
performs the I/O inside try/catch/finally, yields peerResponse on success or
queryError on any caught error, and closes the stream in the finally block
whenever one was assigned. -/
def sendRequest (running : Bool) (dest : Nat) (msg : Message) (env : RequestEnv) : SendResult :=
  if running = false then
    { events := [], dialAttempted := false, streamOpened := false, streamClosed := false }
  else
    let pre := [QueryEvent.dialingPeer dest, QueryEvent.sendingQuery dest msg.type]
    match env.openConn with
    | Except.error e =>
        { events := pre ++ [QueryEvent.queryError dest e]
          dialAttempted := true, streamOpened := false, streamClosed := false }
    | Except.ok _ =>
      match env.newStream with
      | Except.error e =>
          { events := pre ++ [QueryEvent.queryError dest e]
            dialAttempted := true, streamOpened := false, streamClosed := false }
      | Except.ok _ =>
        match env.streamOutcome with
        | Except.error e =>
            { events := pre ++ [QueryEvent.queryError dest e]
              dialAttempted := true, streamOpened := true, streamClosed := true }
        | Except.ok frames =>
          match (writeReadMessage env.deser frames).result with
          | Except.error e =>
              { events := pre ++ [QueryEvent.queryError dest e]
                dialAttempted := true, streamOpened := true, streamClosed := true }
          | Except.ok response =>
              { events := pre ++ [QueryEvent.peerResponse dest response.type
                  response.closerPeers response.providerPeers response.record]
                dialAttempted := true, streamOpened := true, streamClosed := true }

/-- Network.sendMessage (src/src/network.ts lines 123-149): same shape as
sendRequest but writes without reading; on success yields a peerResponse
carrying only the source and the outgoing message type. -/
def sendMessage (running : Bool) (dest : Nat) (msg : Message) (env : MessageEnv) : SendResult :=
  if running = false then
    { events := [], dialAttempted := false, streamOpened := false, streamClosed := false }
  else
    let pre := [QueryEvent.dialingPeer dest, QueryEvent.sendingQuery dest msg.type]
    match env.openConn with
    | Except.error e =>
        { events := pre ++ [QueryEvent.queryError dest e]
          dialAttempted := true, streamOpened := false, streamClosed := false }
    | Except.ok _ =>
      match env.newStream with
      | Except.error e =>
          { events := pre ++ [QueryEvent.queryError dest e]
            dialAttempted := true, streamOpened := false, streamClosed := false }
      | Except.ok _ =>
        match env.write with
        | Except.error e =>
            { events := pre ++ [QueryEvent.queryError dest e]
              dialAttempted := true, streamOpened := true, streamClosed := true }
        | Except.ok _ =>
            { events := pre ++ [QueryEvent.peerResponse dest msg.type [] [] none]
              dialAttempted := true, streamOpened := true, streamClosed := true }

/-- The overall outcome of the fallible section of sendRequest: the first
error among connection open, stream open and the write-read exchange, or the
response message. -/
def requestOutcome (env : RequestEnv) : Except IOErr Message :=
  match env.openConn with
  | Except.error e => Except.error e
  | Except.ok _ =>
    match env.newStream with
    | Except.error e => Except.error e
    | Except.ok _ =>
      match env.streamOutcome with
      | Except.error e => Except.error e
      | Except.ok frames => (writeReadMessage env.deser frames).result

/-- The overall outcome of the fallible section of sendMessage. -/
def messageOutcome (env : MessageEnv) : Except IOErr Unit :=
  match env.openConn with
  | Except.error e => Except.error e
  | Except.ok _ =>
    match env.newStream with
    | Except.error e => Except.error e
    | Except.ok _ => env.write

/-- A k-bucket contact: the routing key bytes and its peer, abstracted to the
identifier that distinguishes contacts. -/
structure Contact where
  id : Nat
deriving DecidableEq, Repr

/-- Does the bucket hold a contact with this identifier? -/
def containsPeer (kb : List Contact) (pid : Nat) : Bool :=
  kb.any (fun c => c.id = pid)

/-- Modelled from the spec: `RoutingTable._onPing` of
src/routing-table/index.js is not present under src/ (only its test,
src/test/routing-table.spec.ts, is). Spec 4.2, ping arbitration: the queued
job pings the oldest candidate of `oldPeers` by opening the DHT protocol
stream. If the dial succeeds the old peer is marked fresh and moved to newest
and the new peer is dropped; if the dial rejects the old peer is evicted and
the new peer takes its place. The bucket list is ordered oldest first. -/
def onPingJob (dialSucceeds : Bool) (kb : List Contact)
    (oldPeers : List Contact) (newPeer : Contact) : List Contact :=
  match oldPeers with
  | [] => kb
  | oldest :: _ =>
    if dialSucceeds then
      kb.filter (fun c => c.id ≠ oldest.id) ++ [oldest]
    else
      kb.filter (fun c => c.id ≠ oldest.id) ++ [newPeer]

/-- Modelled from the spec: `removePublicAddresses` of src/utils.js is not
present under src/. LAN mode keeps only private addresses. -/
def removePublicAddresses (p : PeerInfo) : PeerInfo :=
  { p with multiaddrs := p.multiaddrs.filter (fun a => a.isPrivate) }

/-- Modelled from the spec: `removePrivateAddresses` of src/utils.js is not
present under src/. WAN mode keeps only public addresses. -/
def removePrivateAddresses (p : PeerInfo) : PeerInfo :=
  { p with multiaddrs := p.multiaddrs.filter (fun a => !a.isPrivate) }

/-- Outcome of KadDHT.onPeerConnect: the peer data after address filtering and
whether routingTable.add was invoked for the peer. -/
structure PeerConnectResult where
  filtered : PeerInfo
  addCalled : Bool
deriving DecidableEq, Repr

/-- KadDHT.onPeerConnect (src/unnamed/part_000 lines 198-217): filter the
peer addresses by mode (public addresses removed in LAN mode, private
addresses removed otherwise); if no address survives, ignore the peer,
otherwise add it to the routing table. -/
def onPeerConnect (lan : Bool) (peerData : PeerInfo) : PeerConnectResult :=
  let pd := if lan then removePublicAddresses peerData else removePrivateAddresses peerData
  if pd.multiaddrs.length = 0 then
    { filtered := pd, addCalled := false }
  else
    { filtered := pd, addCalled := true }

/-- DHT operating mode. -/
inductive Mode where
  | client
  | server
deriving DecidableEq, Repr

/-- KadDHT.getMode (src/unnamed/part_000 lines 229-231). -/
def getMode (clientMode : Bool) : Mode :=
  if clientMode then Mode.client else Mode.server

/-- A call made on the registrar by setMode. -/
inductive RegistrarAction where
  | unhandle (protocol : String)
  | handle (protocol : String)
deriving DecidableEq, Repr

/-- KadDHT.setMode (src/unnamed/part_000 lines 236-247): always unregister the
protocol handler first; in client mode set the flag; in server mode clear the
flag and register the inbound RPC handler. Returns the new clientMode flag and
the registrar calls in order. -/
def setMode (protocol : String) (mode : Mode) : Bool × List RegistrarAction :=
  match mode with
  | Mode.client => (true, [RegistrarAction.unhandle protocol])
  | Mode.server => (false, [RegistrarAction.unhandle protocol, RegistrarAction.handle protocol])

/-- Math.ceil over a nonnegative integer halved: JS Math.ceil(k / 2). -/
def ceilHalf (k : Nat) : Nat := (k + 1) / 2

/-- The KadDHTInit options read by the constructor fields the claims concern. -/
structure KadDHTInit where
  kBucketSize : Option Nat
  clientMode : Option Bool
  lan : Option Bool
  protocolPrefix : Option String

/-- The configuration the KadDHT constructor derives. -/
structure KadDHTConfig where
  protocol : String
  kBucketSize : Nat
  clientMode : Bool
  lan : Bool
  disjointPaths : Nat
deriving DecidableEq, Repr

/-- KadDHT constructor (src/unnamed/part_000 lines 58-100): lan defaults to
false, protocol is prefix (default /ipfs) plus /lan in LAN mode plus
/kad/1.0.0, kBucketSize defaults to 20, clientMode defaults to true, and the
query manager is configured with disjointPaths = Math.ceil(kBucketSize / 2). -/
def mkKadDHT (init : KadDHTInit) : KadDHTConfig :=
  let lan := init.lan.getD false
  let kBucketSize := init.kBucketSize.getD 20
  { protocol := (init.protocolPrefix.getD "/ipfs") ++ (if lan then "/lan" else "") ++ "/kad/1.0.0"
    kBucketSize := kBucketSize
    clientMode := init.clientMode.getD true
    lan := lan
    disjointPaths := ceilHalf kBucketSize }

/-- The init record with every option left unset. -/
def defaultInit : KadDHTInit :=
  { kBucketSize := none, clientMode := none, lan := none, protocolPrefix := none }

/-- The bucket holds an identifier exactly when some contact carries it. -/
theorem containsPeer_eq_true_iff (kb : List Contact) (pid : Nat) :
    containsPeer kb pid = true ↔ ∃ c ∈ kb, c.id = pid := by
  simp [containsPeer]

/-- The bucket misses an identifier exactly when no contact carries it. -/
theorem containsPeer_eq_false_iff (kb : List Contact) (pid : Nat) :
    containsPeer kb pid = false ↔ ∀ c ∈ kb, c.id ≠ pid := by
  rw [Bool.eq_false_iff, Ne, containsPeer_eq_true_iff]
  push_neg
  rfl

/-- C1: ping arbitration on a full bucket is decided by the liveness of the old peer:
if the liveness probe of the oldest peer succeeds, the new peer is
absent afterwards and the old peer remains; if the dial rejects, the old peer
is evicted and the new peer is present. -/
theorem onPing_arbitration (kb : List Contact) (oldPeer newPeer : Contact)
    (hne : oldPeer.id ≠ newPeer.id)
    (hnew : containsPeer kb newPeer.id = false) :
    (containsPeer (onPingJob true kb [oldPeer] newPeer) newPeer.id = false ∧
     containsPeer (onPingJob true kb [oldPeer] newPeer) oldPeer.id = true) ∧
    (containsPeer (onPingJob false kb [oldPeer] newPeer) oldPeer.id = false ∧
     containsPeer (onPingJob false kb [oldPeer] newPeer) newPeer.id = true) := by
  have htrue : onPingJob true kb [oldPeer] newPeer =
      kb.filter (fun c => c.id ≠ oldPeer.id) ++ [oldPeer] := rfl
  have hfalse : onPingJob false kb [oldPeer] newPeer =
      kb.filter (fun c => c.id ≠ oldPeer.id) ++ [newPeer] := rfl
  have hnewAll : ∀ c ∈ kb, c.id ≠ newPeer.id := (containsPeer_eq_false_iff kb newPeer.id).mp hnew
  refine ⟨⟨?_, ?_⟩, ?_, ?_⟩
  · rw [htrue, containsPeer_eq_false_iff]
    intro c hc
    rcases List.mem_append.mp hc with h | h
    · exact hnewAll c (List.mem_filter.mp h).1
    · rw [List.mem_singleton] at h
      subst h
      exact hne
  · rw [htrue, containsPeer_eq_true_iff]
    exact ⟨oldPeer, List.mem_append_right _ (List.mem_singleton_self _), rfl⟩
  · rw [hfalse, containsPeer_eq_false_iff]
    intro c hc
    rcases List.mem_append.mp hc with h | h
    · exact of_decide_eq_true (List.mem_filter.mp h).2
    · rw [List.mem_singleton] at h
      subst h
      exact fun hid => hne hid.symm
  · rw [hfalse, containsPeer_eq_true_iff]
    exact ⟨newPeer, List.mem_append_right _ (List.mem_singleton_self _), rfl⟩

/-- Witness for onPing_arbitration at a concrete one-contact bucket. -/
theorem onPing_arbitration_witness :
    (containsPeer (onPingJob true [⟨1⟩] [⟨1⟩] ⟨2⟩) 2 = false ∧
     containsPeer (onPingJob true [⟨1⟩] [⟨1⟩] ⟨2⟩) 1 = true) ∧
    (containsPeer (onPingJob false [⟨1⟩] [⟨1⟩] ⟨2⟩) 1 = false ∧
     containsPeer (onPingJob false [⟨1⟩] [⟨1⟩] ⟨2⟩) 2 = true) :=
  onPing_arbitration [⟨1⟩] ⟨1⟩ ⟨2⟩ (by decide) (by decide)

/-- C2: on a started network, sendRequest emits dialing_peer, then
sending_query, then exactly one final event: peer_response carrying the
type, closer peers, provider peers and record of the response when the exchange
succeeds, or query_error carrying the peer and the error otherwise. -/
theorem sendRequest_event_sequence (dest : Nat) (msg : Message) (env : RequestEnv) :
    (sendRequest true dest msg env).events =
      [QueryEvent.dialingPeer dest, QueryEvent.sendingQuery dest msg.type] ++
        [match requestOutcome env with
         | Except.ok r =>
             QueryEvent.peerResponse dest r.type r.closerPeers r.providerPeers r.record
         | Except.error e => QueryEvent.queryError dest e] := by
  cases h1 : env.openConn with
  | error e => simp [sendRequest, requestOutcome, h1]
  | ok u =>
    cases h2 : env.newStream with
    | error e => simp [sendRequest, requestOutcome, h1, h2]
    | ok v =>
      cases h3 : env.streamOutcome with
      | error e => simp [sendRequest, requestOutcome, h1, h2, h3]
      | ok frames =>
        cases h4 : (writeReadMessage env.deser frames).result with
        | error e => simp [sendRequest, requestOutcome, h1, h2, h3, h4]
        | ok r => simp [sendRequest, requestOutcome, h1, h2, h3, h4]

/-- C3: every I/O failure inside sendRequest or sendMessage is captured: the
generator completes normally with a final query_error event carrying the
error, and never propagates it (the embedding is a total function, so no run
throws). -/
theorem send_errors_captured (dest : Nat) (msg : Message)
    (reqEnv : RequestEnv) (msgEnv : MessageEnv) (e e' : IOErr) :
    (requestOutcome reqEnv = Except.error e →
      (sendRequest true dest msg reqEnv).events =
        [QueryEvent.dialingPeer dest, QueryEvent.sendingQuery dest msg.type,
         QueryEvent.queryError dest e]) ∧
    (messageOutcome msgEnv = Except.error e' →
      (sendMessage true dest msg msgEnv).events =
        [QueryEvent.dialingPeer dest, QueryEvent.sendingQuery dest msg.type,
         QueryEvent.queryError dest e']) := by
  constructor
  · intro h
    cases h1 : reqEnv.openConn with
    | error x =>
      simp only [requestOutcome, h1] at h
      cases h
      simp [sendRequest, h1]
    | ok u =>
      cases h2 : reqEnv.newStream with
      | error x =>
        simp only [requestOutcome, h1, h2] at h
        cases h
        simp [sendRequest, h1, h2]
      | ok v =>
        cases h3 : reqEnv.streamOutcome with
        | error x =>
          simp only [requestOutcome, h1, h2, h3] at h
          cases h
          simp [sendRequest, h1, h2, h3]
        | ok frames =>
          simp only [requestOutcome, h1, h2, h3] at h
          simp [sendRequest, h1, h2, h3, h]
  · intro h
    cases h1 : msgEnv.openConn with
    | error x =>
      simp only [messageOutcome, h1] at h
      cases h
      simp [sendMessage, h1]
    | ok u =>
      cases h2 : msgEnv.newStream with
      | error x =>
        simp only [messageOutcome, h1, h2] at h
        cases h
        simp [sendMessage, h1, h2]
      | ok v =>
        simp only [messageOutcome, h1, h2] at h
        simp [sendMessage, h1, h2, h]

/-- Witness for send_errors_captured with a rejected dial on both calls. -/
theorem send_errors_captured_witness :
    (sendRequest true 7 ⟨MessageType.findNode, [], [], none⟩
        ⟨Except.error ⟨"Could not dial peer", "ERR_DIAL"⟩, Except.ok (), Except.ok [],
         fun _ => ⟨MessageType.ping, [], [], none⟩⟩).events =
      [QueryEvent.dialingPeer 7, QueryEvent.sendingQuery 7 MessageType.findNode,
       QueryEvent.queryError 7 ⟨"Could not dial peer", "ERR_DIAL"⟩] ∧
    (sendMessage true 7 ⟨MessageType.findNode, [], [], none⟩
        ⟨Except.error ⟨"Could not dial peer", "ERR_DIAL"⟩, Except.ok (), Except.ok ()⟩).events =
      [QueryEvent.dialingPeer 7, QueryEvent.sendingQuery 7 MessageType.findNode,
       QueryEvent.queryError 7 ⟨"Could not dial peer", "ERR_DIAL"⟩] :=
  ⟨(send_errors_captured 7 ⟨MessageType.findNode, [], [], none⟩
      ⟨Except.error ⟨"Could not dial peer", "ERR_DIAL"⟩, Except.ok (), Except.ok [],
       fun _ => ⟨MessageType.ping, [], [], none⟩⟩
      ⟨Except.error ⟨"Could not dial peer", "ERR_DIAL"⟩, Except.ok (), Except.ok ()⟩
      ⟨"Could not dial peer", "ERR_DIAL"⟩ ⟨"Could not dial peer", "ERR_DIAL"⟩).1 rfl,
   (send_errors_captured 7 ⟨MessageType.findNode, [], [], none⟩
      ⟨Except.error ⟨"Could not dial peer", "ERR_DIAL"⟩, Except.ok (), Except.ok [],
       fun _ => ⟨MessageType.ping, [], [], none⟩⟩
      ⟨Except.error ⟨"Could not dial peer", "ERR_DIAL"⟩, Except.ok (), Except.ok ()⟩
      ⟨"Could not dial peer", "ERR_DIAL"⟩ ⟨"Could not dial peer", "ERR_DIAL"⟩).2 rfl⟩

/-- C4: _writeReadMessage returns the deserialization of the first decoded
frame when the stream yields one, leaves the remaining frames unread, and
fails with error code ERR_NO_MESSAGE_RECEIVED exactly when the stream yields
no frame. -/
theorem writeReadMessage_single_frame (deser : Frame → Message) (frames : List Frame) :
    (writeReadMessage deser frames).result =
      (match frames with
       | [] => Except.error noMessageReceived
       | b :: _ => Except.ok (deser b)) ∧
    (writeReadMessage deser frames).unread = frames.tail ∧
    ((writeReadMessage deser frames).result = Except.error noMessageReceived ↔ frames = []) ∧
    noMessageReceived.code = "ERR_NO_MESSAGE_RECEIVED" := by
  cases frames <;> simp [writeReadMessage, firstOfSource, noMessageReceived]

/-- C5: on every exit path of sendRequest and sendMessage, the stream is
closed before the event sequence completes exactly when one was opened. -/
theorem streams_always_closed (running : Bool) (dest : Nat) (msg : Message)
    (reqEnv : RequestEnv) (msgEnv : MessageEnv) :
    (sendRequest running dest msg reqEnv).streamClosed =
      (sendRequest running dest msg reqEnv).streamOpened ∧
    (sendMessage running dest msg msgEnv).streamClosed =
      (sendMessage running dest msg msgEnv).streamOpened := by
  constructor
  · cases running with
    | false => rfl
    | true =>
      cases h1 : reqEnv.openConn with
      | error e => simp [sendRequest, h1]
      | ok u =>
        cases h2 : reqEnv.newStream with
        | error e => simp [sendRequest, h1, h2]
        | ok v =>
          cases h3 : reqEnv.streamOutcome with
          | error e => simp [sendRequest, h1, h2, h3]
          | ok frames =>
            cases h4 : (writeReadMessage reqEnv.deser frames).result with
            | error e => simp [sendRequest, h1, h2, h3, h4]
            | ok r => simp [sendRequest, h1, h2, h3, h4]
  · cases running with
    | false => rfl
    | true =>
      cases h1 : msgEnv.openConn with
      | error e => simp [sendMessage, h1]
      | ok u =>
        cases h2 : msgEnv.newStream with
        | error e => simp [sendMessage, h1, h2]
        | ok v =>
          cases h3 : msgEnv.write with
          | error e => simp [sendMessage, h1, h2, h3]
          | ok w => simp [sendMessage, h1, h2, h3]

/-- C6 counterexample: a response whose closerPeers and providerPeers both
mention the same single peer dispatches two peer events, not one per distinct
peer. -/
theorem peer_events_not_dedup_counterexample :
    (writeReadMessage
        (fun _ => { type := MessageType.findNode,
                    closerPeers := [{ id := 0, multiaddrs := [] }],
                    providerPeers := [{ id := 0, multiaddrs := [] }],
                    record := none })
        [[0]]).peerEvents =
      [{ id := 0, multiaddrs := [] }, { id := 0, multiaddrs := [] }] ∧
    ¬ (writeReadMessage
        (fun _ => { type := MessageType.findNode,
                    closerPeers := [{ id := 0, multiaddrs := [] }],
                    providerPeers := [{ id := 0, multiaddrs := [] }],
                    record := none })
        [[0]]).peerEvents.length = 1 := by
  exact ⟨rfl, by decide⟩

/-- C6 amended: _writeReadMessage dispatches one peer event per occurrence of
a peer in the closerPeers list of the response followed by one per occurrence in
providerPeers, with no deduplication. -/
theorem peer_events_per_occurrence (deser : Frame → Message) (b : Frame)
    (rest : List Frame) (p : PeerInfo) :
    (writeReadMessage deser (b :: rest)).peerEvents =
      (deser b).closerPeers ++ (deser b).providerPeers ∧
    List.count p (writeReadMessage deser (b :: rest)).peerEvents =
      List.count p (deser b).closerPeers + List.count p (deser b).providerPeers := by
  simp [writeReadMessage, firstOfSource, List.count_append]

/-- C7: onPeerConnect filters addresses by mode - public addresses removed in
LAN mode, private addresses removed otherwise - and calls routingTable.add
exactly when at least one address survives the filter. -/
theorem onPeerConnect_filters_and_adds (lan : Bool) (p : PeerInfo) :
    (onPeerConnect lan p).filtered =
      (if lan then removePublicAddresses p else removePrivateAddresses p) ∧
    ((onPeerConnect lan p).addCalled = true ↔
      (if lan then removePublicAddresses p else removePrivateAddresses p).multiaddrs ≠ []) := by
  have hunfold : onPeerConnect lan p =
      if (if lan then removePublicAddresses p else removePrivateAddresses p).multiaddrs.length = 0
      then { filtered := if lan then removePublicAddresses p else removePrivateAddresses p
             addCalled := false }
      else { filtered := if lan then removePublicAddresses p else removePrivateAddresses p
             addCalled := true } := rfl
  by_cases h : (if lan then removePublicAddresses p else removePrivateAddresses p).multiaddrs.length = 0
  · rw [hunfold, if_pos h]
    exact ⟨rfl, by simp [List.length_eq_zero.mp h]⟩
  · rw [hunfold, if_neg h]
    refine ⟨rfl, ?_⟩
    simp only [true_iff]
    intro hnil
    exact h (by rw [hnil]; rfl)

/-- C8: setMode first unregisters the protocol handler, registers the inbound
RPC handler exactly when the new mode is server, and a subsequent getMode
returns the mode just set; with every option unset the constructor leaves the
node in client mode. -/
theorem setMode_registrar_and_mode (protocol : String) (mode : Mode) :
    (setMode protocol mode).2.head? = some (RegistrarAction.unhandle protocol) ∧
    ((RegistrarAction.handle protocol ∈ (setMode protocol mode).2) ↔ mode = Mode.server) ∧
    getMode (setMode protocol mode).1 = mode ∧
    getMode (mkKadDHT defaultInit).clientMode = Mode.client := by
  cases mode <;> simp [setMode, getMode, mkKadDHT, defaultInit]

/-- C9: the constructor configures the query manager with disjointPaths equal
to the ceiling of half the bucket size; kBucketSize defaults to 20, so the
default number of disjoint paths is 10. -/
theorem disjoint_paths_config (init : KadDHTInit) :
    (mkKadDHT init).disjointPaths = ceilHalf (mkKadDHT init).kBucketSize ∧
    (mkKadDHT init).kBucketSize = init.kBucketSize.getD 20 ∧
    (mkKadDHT defaultInit).kBucketSize = 20 ∧
    (mkKadDHT defaultInit).disjointPaths = 10 := by
  simp [mkKadDHT, ceilHalf, defaultInit]

/-- C10: when the network is not running, sendRequest and sendMessage emit no
events, raise no error, and never touch the connection manager. -/
theorem not_started_no_events (dest : Nat) (msg : Message)
    (reqEnv : RequestEnv) (msgEnv : MessageEnv) :
    sendRequest false dest msg reqEnv =
      { events := [], dialAttempted := false, streamOpened := false, streamClosed := false } ∧
    sendMessage false dest msg msgEnv =
      { events := [], dialAttempted := false, streamOpened := false, streamClosed := false } :=
  ⟨rfl, rfl⟩

end KadDht
